import Mathlib

/-!
# Verification of `scripts/qc/filter_inventory.py`

A shallow embedding of the inventory-filtering script: pandas data frames
become `Frame` (an ordered list of column names plus rows of optional cells,
`none` standing for NaN), the pandas element-wise comparisons become the
`v*` helpers below (faithful to pandas semantics: any comparison with NaN
is false, except `!=` which is true), and the `__main__` driver becomes
`mainRun`, which also records an event trace of file reads and output writes.
-/

set_option autoImplicit false

namespace FilterInventory

/-- A cell value: an integer or a string.  A full cell is `some v`, NaN is
`none` (type `Value`). -/
inductive Val where
  | int : Int → Val
  | str : String → Val
deriving DecidableEq, Repr

/-- A data-frame cell: `none` models pandas NaN / a null cell. -/
abbrev Value := Option Val

/-- Element-wise `series > k`: NaN (and non-numeric) compares false. -/
def vGt (v : Value) (k : Int) : Bool :=
  match v with
  | some (.int n) => k < n
  | _ => false

/-- Element-wise `series < k`: NaN (and non-numeric) compares false. -/
def vLt (v : Value) (k : Int) : Bool :=
  match v with
  | some (.int n) => n < k
  | _ => false

/-- Element-wise `series == k`: NaN (and non-numeric) compares false. -/
def vEq (v : Value) (k : Int) : Bool :=
  match v with
  | some (.int n) => n == k
  | _ => false

/-- Element-wise `series != k`: NaN compares TRUE (pandas `NaN != k`). -/
def vNe (v : Value) (k : Int) : Bool :=
  match v with
  | some (.int n) => n != k
  | _ => true

/-- Element-wise `series < scalar-value`; false when either side is NaN. -/
def vLtV (v w : Value) : Bool :=
  match v, w with
  | some (.int a), some (.int b) => a < b
  | _, _ => false

/-- Null test `.isnull()` on a cell. -/
def vIsNull (v : Value) : Bool := v.isNone

/-- Element-wise conjunction of two boolean series (`&`). -/
def sAnd (a b : List Bool) : List Bool := List.zipWith (fun x y => x && y) a b

/-- The numeric reading of a cell, `none` for NaN and non-numeric cells. -/
def extractInt (v : Value) : Option Int :=
  match v with
  | some (.int n) => some n
  | _ => none

/-- Model of `Series.max()`: maximum of the numeric cells, skipping NaN; NaN when
there is nothing to take a maximum of. -/
def seriesMax (vs : List Value) : Value :=
  match vs.filterMap extractInt with
  | [] => none
  | a :: as => some (.int (as.foldl max a))

/-- A pandas `DataFrame`: ordered column names and rows of cells (each row
aligned positionally with `cols`). -/
structure Frame where
  cols : List String
  rows : List (List Value)
deriving DecidableEq, Repr

/-- Position of column `c`, `none` when the frame lacks it. -/
def findCol (c : String) : List String → Option Nat
  | [] => none
  | x :: xs => if x == c then some 0 else (findCol c xs).map (· + 1)

/-- Column access `frame[c]`: the column as a series, or a `KeyError` (modelled as
`.error ()`) when the column is absent. -/
def Frame.col (f : Frame) (c : String) : Except Unit (List Value) :=
  match findCol c f.cols with
  | none => .error ()
  | some i => .ok (f.rows.map (fun r => r.getD i none))

/-! ## The predicate library (lines 11–55 of the script) -/

/-- Python: `(inventory["non_nan_count"] > 0) & (inventory["missing"].isnull())` -/
def probably_not_missing_but_unmarked (inventory : Frame) : Except Unit (List Bool) :=
  (inventory.col "non_nan_count").bind fun n =>
  (inventory.col "missing").bind fun m =>
  Except.ok (sAnd (n.map (fun v => vGt v 0)) (m.map vIsNull))

/-- Python: `(inventory["non_nan_count"] == 0) & (inventory["missing"] == 0)` -/
def probably_missing_but_marked_present (inventory : Frame) : Except Unit (List Bool) :=
  (inventory.col "non_nan_count").bind fun n =>
  (inventory.col "missing").bind fun m =>
  Except.ok (sAnd (n.map (fun v => vEq v 0)) (m.map (fun v => vEq v 0)))

/-- Python: `(inventory["non_nan_count"] == 0) & inventory["missing"].isnull()` -/
def probably_missing_but_unmarked (inventory : Frame) : Except Unit (List Bool) :=
  (inventory.col "non_nan_count").bind fun n =>
  (inventory.col "missing").bind fun m =>
  Except.ok (sAnd (n.map (fun v => vEq v 0)) (m.map vIsNull))

/-- Python: `(inventory["non_nan_count"] > 0) & (inventory["complete"] < 2)` -/
def content_not_marked_complete (inventory : Frame) : Except Unit (List Bool) :=
  (inventory.col "non_nan_count").bind fun n =>
  (inventory.col "complete").bind fun c =>
  Except.ok (sAnd (n.map (fun v => vGt v 0)) (c.map (fun v => vLt v 2)))

/-- Python: `(inventory["missing"] == 1) & (inventory["complete"] < 2)` -/
def missing_not_marked_complete (inventory : Frame) : Except Unit (List Bool) :=
  (inventory.col "missing").bind fun m =>
  (inventory.col "complete").bind fun c =>
  Except.ok (sAnd (m.map (fun v => vEq v 1)) (c.map (fun v => vLt v 2)))

/-- Python: `(inventory["non_nan_count"] > 0) & (inventory["non_nan_count"] < inventory["non_nan_count"].max())` -/
def less_content_than_max (inventory : Frame) : Except Unit (List Bool) :=
  (inventory.col "non_nan_count").bind fun n =>
  Except.ok (sAnd (n.map (fun v => vGt v 0)) (n.map (fun v => vLtV v (seriesMax n))))

/-- Python: `(inventory["missing"] == 1) & (inventory["non_nan_count"] > 0)` -/
def has_content_but_marked_missing (inventory : Frame) : Except Unit (List Bool) :=
  (inventory.col "missing").bind fun m =>
  (inventory.col "non_nan_count").bind fun n =>
  Except.ok (sAnd (m.map (fun v => vEq v 1)) (n.map (fun v => vGt v 0)))

/-- Python: `(inventory["non_nan_count"] == 0) & (inventory["complete"] != 2)` -/
def empty_and_not_complete (inventory : Frame) : Except Unit (List Bool) :=
  (inventory.col "non_nan_count").bind fun n =>
  (inventory.col "complete").bind fun c =>
  Except.ok (sAnd (n.map (fun v => vEq v 0)) (c.map (fun v => vNe v 2)))

/-- Python: `(inventory["non_nan_count"] == 0) & (inventory["exclude"] != 1)` -/
def empty_and_not_ignored (inventory : Frame) : Except Unit (List Bool) :=
  (inventory.col "non_nan_count").bind fun n =>
  (inventory.col "exclude").bind fun e =>
  Except.ok (sAnd (n.map (fun v => vEq v 0)) (e.map (fun v => vNe v 1)))

/-- Filter rows by a boolean mask (`.loc[mask]`). -/
def applyMask (rows : List (List Value)) (mask : List Bool) : List (List Value) :=
  (rows.zip mask).filterMap (fun p => if p.2 then some p.1 else none)

/-- Model of `get_filter_results` (lines 58–69): apply the filter, catching the
`KeyError` of a missing column and turning it into `None`. -/
def get_filter_results (inventorized_data : Frame)
    (filter_function : Frame → Except Unit (List Bool)) : Option Frame :=
  match filter_function inventorized_data with
  | .error _ => none
  | .ok mask => some { cols := inventorized_data.cols
                       rows := applyMask inventorized_data.rows mask }

/-! ## Spec-side record model

The documented domains: `missing` tri-state, `complete`/`exclude` integers,
`non_nan_count` a non-negative integer. -/

/-- The documented tri-state `missing` annotation. -/
inductive MissingFlag where
  | unset
  | present
  | missing
deriving DecidableEq, Repr

/-- Its encoding as a cell: unset is NaN, present is `0`, missing is `1`. -/
def MissingFlag.toValue : MissingFlag → Value
  | .unset => none
  | .present => some (.int 0)
  | .missing => some (.int 1)

/-- An inventory record with all four annotation/content fields in the
documented domains. -/
structure Rec where
  non_nan_count : Nat
  missing : MissingFlag
  complete : Int
  exclude : Int
deriving DecidableEq, Repr

/-- The four cells of a record, in inventory column order. -/
def Rec.toCells (r : Rec) : List Value :=
  [some (.int r.non_nan_count), r.missing.toValue,
   some (.int r.complete), some (.int r.exclude)]

/-- The canonical inventory column names. -/
def invCols : List String := ["non_nan_count", "missing", "complete", "exclude"]

/-- An inventory frame holding the given records. -/
def mkInv (rs : List Rec) : Frame :=
  { cols := invCols, rows := rs.map Rec.toCells }

/-- A frame over the four inventory columns with arbitrary cell values
(used to probe null-cell behaviour). -/
def mkRawInv (rs : List (Value × Value × Value × Value)) : Frame :=
  { cols := invCols, rows := rs.map (fun q => [q.1, q.2.1, q.2.2.1, q.2.2.2]) }

/-! Documented formulas from the predicate table (§4.1 of the spec),
read directly against a record's four fields. -/

/-- Documented formula `non_nan_count > 0 AND missing is unset` -/
def formula_probably_not_missing_but_unmarked (r : Rec) : Bool :=
  decide (0 < r.non_nan_count) && decide (r.missing = .unset)

/-- Documented formula `non_nan_count == 0 AND missing == 0` -/
def formula_probably_missing_but_marked_present (r : Rec) : Bool :=
  decide (r.non_nan_count = 0) && decide (r.missing = .present)

/-- Documented formula `non_nan_count == 0 AND missing is unset` -/
def formula_probably_missing_but_unmarked (r : Rec) : Bool :=
  decide (r.non_nan_count = 0) && decide (r.missing = .unset)

/-- Documented formula `non_nan_count > 0 AND complete < 2` -/
def formula_content_not_marked_complete (r : Rec) : Bool :=
  decide (0 < r.non_nan_count) && decide (r.complete < 2)

/-- Documented formula `missing == 1 AND complete < 2` -/
def formula_missing_not_marked_complete (r : Rec) : Bool :=
  decide (r.missing = .missing) && decide (r.complete < 2)

/-- Documented formula `missing == 1 AND non_nan_count > 0` -/
def formula_has_content_but_marked_missing (r : Rec) : Bool :=
  decide (r.missing = .missing) && decide (0 < r.non_nan_count)

/-- Documented formula `non_nan_count == 0 AND complete != 2` -/
def formula_empty_and_not_complete (r : Rec) : Bool :=
  decide (r.non_nan_count = 0) && decide (r.complete ≠ 2)

/-- Documented formula `non_nan_count == 0 AND exclude != 1` -/
def formula_empty_and_not_ignored (r : Rec) : Bool :=
  decide (r.non_nan_count = 0) && decide (r.exclude ≠ 1)

/-! ## The `__main__` driver (lines 93–138 of the script) -/

/-- The registry built in `__main__`: `FILTERS = {x.__name__: x for x in FILTER_LIST}`. -/
def FILTER_LIST : List (String × (Frame → Except Unit (List Bool))) :=
  [("probably_not_missing_but_unmarked", probably_not_missing_but_unmarked),
   ("probably_missing_but_marked_present", probably_missing_but_marked_present),
   ("probably_missing_but_unmarked", probably_missing_but_unmarked),
   ("content_not_marked_complete", content_not_marked_complete),
   ("missing_not_marked_complete", missing_not_marked_complete),
   ("less_content_than_max", less_content_than_max),
   ("has_content_but_marked_missing", has_content_but_marked_missing),
   ("empty_and_not_complete", empty_and_not_complete),
   ("empty_and_not_ignored", empty_and_not_ignored)]

/-- The registered predicate names, as offered to `argparse` via `choices`. -/
def filterNames : List String := FILTER_LIST.map Prod.fst

/-- The columns a predicate's formula references. -/
def requiredCols : String → List String
  | "probably_not_missing_but_unmarked" => ["non_nan_count", "missing"]
  | "probably_missing_but_marked_present" => ["non_nan_count", "missing"]
  | "probably_missing_but_unmarked" => ["non_nan_count", "missing"]
  | "content_not_marked_complete" => ["non_nan_count", "complete"]
  | "missing_not_marked_complete" => ["missing", "complete"]
  | "less_content_than_max" => ["non_nan_count"]
  | "has_content_but_marked_missing" => ["missing", "non_nan_count"]
  | "empty_and_not_complete" => ["non_nan_count", "complete"]
  | "empty_and_not_ignored" => ["non_nan_count", "exclude"]
  | _ => []

/-- The command-line arguments of the script. -/
structure Args where
  verbose : Bool
  post_to_github : Bool
  input : List String
  output : String
  filter : String
deriving DecidableEq, Repr

/-- Model of `parse_args` (lines 72–90): `argparse` rejects a missing `--input`
(`nargs` requires at least one) and a filter name outside `choices`,
exiting with a usage error before anything else runs. -/
def parse_args (filter_choices : List String) (a : Args) : Except Unit Args :=
  if a.input.isEmpty then .error ()
  else if a.filter ∈ filter_choices then .ok a
  else .error ()

/-- Column-union of the given frames, in order of first appearance
(`pd.concat(..., sort=False)` keeps this order). -/
def unionCols (fs : List Frame) : List String :=
  fs.foldl (fun acc f => acc ++ f.cols.filter (fun c => !acc.contains c)) []

/-- The cell of row `r` of frame `f` at column `c`; NaN when `f` lacks `c`. -/
def Frame.rowVal (f : Frame) (r : List Value) (c : String) : Value :=
  match findCol c f.cols with
  | none => none
  | some i => r.getD i none

/-- Model of `pd.concat(fs, sort=False)`: frames stacked in order, each row re-indexed
to the union columns, with NaN in the columns its frame lacks. -/
def concatFrames (fs : List Frame) : Frame :=
  let cs := unionCols fs
  { cols := cs
    rows := fs.flatMap (fun f => f.rows.map (fun r => cs.map (f.rowVal r))) }

/-- An observable I/O action of the driver. -/
inductive Event where
  | read : String → Event
  | write : Frame → Event
deriving DecidableEq, Repr

/-- How a run of the script ends. -/
inductive Outcome where
  /-- Usage `argparse` rejected the arguments (`SystemExit(2)`), before any I/O. -/
  | usageError : Outcome
  /-- `sys.exit(1)` after `get_filter_results` returned `None` for a source. -/
  | filterFailed : Outcome
  /-- uncaught `ValueError` from `pd.concat([])` when no source matched. -/
  | crashed : Outcome
  /-- the aggregate was written and the script ran `sys.exit(0)`. -/
  | finished : Frame → Outcome
deriving DecidableEq, Repr

/-- Process exit code of each outcome (Python exits 1 on an uncaught
exception, argparse exits 2). -/
def Outcome.exitCode : Outcome → Nat
  | .usageError => 2
  | .filterFailed => 1
  | .crashed => 1
  | .finished _ => 0

/-- The `for filename in args.input` loop (lines 113–138): read each source,
filter it, abort on failure, skip empty results, append the rest; at the end
concatenate and write.  `env` maps a file name to the frame its CSV holds. -/
def mainLoop (f : Frame → Except Unit (List Bool)) (env : String → Frame) :
    List String → List Frame → List Event → List Event × Outcome
  | [], all_out, evs =>
      match all_out with
      | [] => (evs, .crashed)
      | r :: rs => (evs ++ [.write (concatFrames (r :: rs))],
                    .finished (concatFrames (r :: rs)))
  | filename :: rest, all_out, evs =>
      let data := env filename
      let evs := evs ++ [.read filename]
      match get_filter_results data f with
      | none => (evs, .filterFailed)
      | some result =>
          if result.rows.isEmpty then mainLoop f env rest all_out evs
          else mainLoop f env rest (all_out ++ [result]) evs

/-- The whole `__main__` block: parse the arguments (validating the filter
name against the registry before any file is touched), resolve the filter
and run the source loop. -/
def mainRun (a : Args) (env : String → Frame) : List Event × Outcome :=
  match parse_args filterNames a with
  | .error _ => ([], .usageError)
  | .ok args =>
      match FILTER_LIST.lookup args.filter with
      | none => ([], .usageError)
      | some f => mainLoop f env args.input [] []

/-- The per-source match sets a successful run accumulates: the non-empty
filter results, in source order. -/
def contribOf (f : Frame → Except Unit (List Bool)) (env : String → Frame)
    (inputs : List String) : List Frame :=
  (inputs.filterMap (fun fn => get_filter_results (env fn) f)).filter
    (fun r => !r.rows.isEmpty)

/-! ## Basic lemmas -/

theorem exceptBind_ok {α β : Type} (a : α) (f : α → Except Unit β) :
    (Except.ok a).bind f = f a := rfl

theorem exceptBind_error {α β : Type} (f : α → Except Unit β) :
    (Except.error () : Except Unit α).bind f = .error () := rfl

theorem sAnd_map_map {α : Type} (f g : α → Bool) (l : List α) :
    sAnd (l.map f) (l.map g) = l.map (fun x => f x && g x) := by
  induction l with
  | nil => rfl
  | cons a as ih => simp [sAnd, List.zipWith] at ih ⊢

/-- Extracting the `non_nan_count` column of an inventory frame. -/
theorem col_mkInv_nnc (rs : List Rec) :
    (mkInv rs).col "non_nan_count" =
      .ok (rs.map (fun r => some (.int r.non_nan_count))) := by
  show Except.ok ((rs.map Rec.toCells).map (fun r => r.getD 0 none)) = _
  rw [List.map_map]
  rfl

/-- Extracting the `missing` column of an inventory frame. -/
theorem col_mkInv_missing (rs : List Rec) :
    (mkInv rs).col "missing" = .ok (rs.map (fun r => r.missing.toValue)) := by
  show Except.ok ((rs.map Rec.toCells).map (fun r => r.getD 1 none)) = _
  rw [List.map_map]
  rfl

/-- Extracting the `complete` column of an inventory frame. -/
theorem col_mkInv_complete (rs : List Rec) :
    (mkInv rs).col "complete" = .ok (rs.map (fun r => some (.int r.complete))) := by
  show Except.ok ((rs.map Rec.toCells).map (fun r => r.getD 2 none)) = _
  rw [List.map_map]
  rfl

/-- Extracting the `exclude` column of an inventory frame. -/
theorem col_mkInv_exclude (rs : List Rec) :
    (mkInv rs).col "exclude" = .ok (rs.map (fun r => some (.int r.exclude))) := by
  show Except.ok ((rs.map Rec.toCells).map (fun r => r.getD 3 none)) = _
  rw [List.map_map]
  rfl

/-! Cell-level readings of the pandas comparisons on domain values. -/

theorem vGt_nat (n : Nat) : vGt (some (.int n)) 0 = decide (0 < n) := by
  rw [vGt, decide_eq_decide]
  exact Int.natCast_pos

theorem vEq_nat0 (n : Nat) : vEq (some (.int n)) 0 = decide (n = 0) := by
  rw [vEq, Bool.eq_iff_iff]
  simp

theorem vIsNull_toValue (m : MissingFlag) :
    vIsNull m.toValue = decide (m = .unset) := by
  cases m <;> rfl

theorem vEq_toValue0 (m : MissingFlag) :
    vEq m.toValue 0 = decide (m = .present) := by
  cases m <;> rfl

theorem vEq_toValue1 (m : MissingFlag) :
    vEq m.toValue 1 = decide (m = .missing) := by
  cases m <;> rfl

theorem vLt_int (c : Int) : vLt (some (.int c)) 2 = decide (c < 2) := rfl

theorem vNe_int (c k : Int) : vNe (some (.int c)) k = decide (c ≠ k) := by
  rw [vNe, Bool.eq_iff_iff]
  simp

/-! Row-wise evaluation of each predicate on an inventory of domain records. -/

theorem pnmbu_eval (rs : List Rec) :
    probably_not_missing_but_unmarked (mkInv rs) =
      .ok (rs.map formula_probably_not_missing_but_unmarked) := by
  simp only [probably_not_missing_but_unmarked, col_mkInv_nnc, col_mkInv_missing,
             exceptBind_ok, List.map_map, sAnd_map_map]
  congr 1
  refine List.map_congr_left fun r _ => ?_
  simp only [Function.comp, formula_probably_not_missing_but_unmarked,
             vGt_nat, vIsNull_toValue]

theorem pmbmp_eval (rs : List Rec) :
    probably_missing_but_marked_present (mkInv rs) =
      .ok (rs.map formula_probably_missing_but_marked_present) := by
  simp only [probably_missing_but_marked_present, col_mkInv_nnc, col_mkInv_missing,
             exceptBind_ok, List.map_map, sAnd_map_map]
  congr 1
  refine List.map_congr_left fun r _ => ?_
  simp only [Function.comp, formula_probably_missing_but_marked_present,
             vEq_nat0, vEq_toValue0]

theorem pmbu_eval (rs : List Rec) :
    probably_missing_but_unmarked (mkInv rs) =
      .ok (rs.map formula_probably_missing_but_unmarked) := by
  simp only [probably_missing_but_unmarked, col_mkInv_nnc, col_mkInv_missing,
             exceptBind_ok, List.map_map, sAnd_map_map]
  congr 1
  refine List.map_congr_left fun r _ => ?_
  simp only [Function.comp, formula_probably_missing_but_unmarked,
             vEq_nat0, vIsNull_toValue]

theorem cnmc_eval (rs : List Rec) :
    content_not_marked_complete (mkInv rs) =
      .ok (rs.map formula_content_not_marked_complete) := by
  simp only [content_not_marked_complete, col_mkInv_nnc, col_mkInv_complete,
             exceptBind_ok, List.map_map, sAnd_map_map]
  congr 1
  refine List.map_congr_left fun r _ => ?_
  simp only [Function.comp, formula_content_not_marked_complete, vGt_nat, vLt_int]

theorem mnmc_eval (rs : List Rec) :
    missing_not_marked_complete (mkInv rs) =
      .ok (rs.map formula_missing_not_marked_complete) := by
  simp only [missing_not_marked_complete, col_mkInv_missing, col_mkInv_complete,
             exceptBind_ok, List.map_map, sAnd_map_map]
  congr 1
  refine List.map_congr_left fun r _ => ?_
  simp only [Function.comp, formula_missing_not_marked_complete, vEq_toValue1, vLt_int]

theorem hcbmm_eval (rs : List Rec) :
    has_content_but_marked_missing (mkInv rs) =
      .ok (rs.map formula_has_content_but_marked_missing) := by
  simp only [has_content_but_marked_missing, col_mkInv_missing, col_mkInv_nnc,
             exceptBind_ok, List.map_map, sAnd_map_map]
  congr 1
  refine List.map_congr_left fun r _ => ?_
  simp only [Function.comp, formula_has_content_but_marked_missing, vEq_toValue1, vGt_nat]

theorem eanc_eval (rs : List Rec) :
    empty_and_not_complete (mkInv rs) =
      .ok (rs.map formula_empty_and_not_complete) := by
  simp only [empty_and_not_complete, col_mkInv_nnc, col_mkInv_complete,
             exceptBind_ok, List.map_map, sAnd_map_map]
  congr 1
  refine List.map_congr_left fun r _ => ?_
  simp only [Function.comp, formula_empty_and_not_complete, vEq_nat0, vNe_int]

theorem eani_eval (rs : List Rec) :
    empty_and_not_ignored (mkInv rs) =
      .ok (rs.map formula_empty_and_not_ignored) := by
  simp only [empty_and_not_ignored, col_mkInv_nnc, col_mkInv_exclude,
             exceptBind_ok, List.map_map, sAnd_map_map]
  congr 1
  refine List.map_congr_left fun r _ => ?_
  simp only [Function.comp, formula_empty_and_not_ignored, vEq_nat0, vNe_int]

/-- C1: on any inventory of records whose four annotation/content fields lie
in the documented domains, each of the eight row-wise predicates returns a
selection mask with exactly one boolean per input row (the mask is the
row-wise `map` of a record-level formula), and that boolean agrees with
direct evaluation of the boolean formula documented for the predicate in the
spec's predicate table. -/
theorem c1_rowwise_predicates_match_documented_formulas (rs : List Rec) :
    probably_not_missing_but_unmarked (mkInv rs) =
        .ok (rs.map formula_probably_not_missing_but_unmarked) ∧
    probably_missing_but_marked_present (mkInv rs) =
        .ok (rs.map formula_probably_missing_but_marked_present) ∧
    probably_missing_but_unmarked (mkInv rs) =
        .ok (rs.map formula_probably_missing_but_unmarked) ∧
    content_not_marked_complete (mkInv rs) =
        .ok (rs.map formula_content_not_marked_complete) ∧
    missing_not_marked_complete (mkInv rs) =
        .ok (rs.map formula_missing_not_marked_complete) ∧
    has_content_but_marked_missing (mkInv rs) =
        .ok (rs.map formula_has_content_but_marked_missing) ∧
    empty_and_not_complete (mkInv rs) =
        .ok (rs.map formula_empty_and_not_complete) ∧
    empty_and_not_ignored (mkInv rs) =
        .ok (rs.map formula_empty_and_not_ignored) ∧
    ∀ (fm : Rec → Bool), (rs.map fm).length = rs.length :=
  ⟨pnmbu_eval rs, pmbmp_eval rs, pmbu_eval rs, cnmc_eval rs, mnmc_eval rs,
   hcbmm_eval rs, eanc_eval rs, eani_eval rs, fun _ => rs.length_map _⟩

/-- C10: a null `complete` cell fails the `< 2` comparisons, so with
`complete` unset neither `content_not_marked_complete` (for any
`non_nan_count`, in particular one with content) nor
`missing_not_marked_complete` (for any `missing`, in particular marked
missing) selects the record; yet the same null cell satisfies `!= 2`, so
`empty_and_not_complete` does select an empty record with `complete` unset:
the two "not complete" comparisons treat an absent completion code
oppositely. -/
theorem c10_null_complete_treated_oppositely (n m e : Value) :
    content_not_marked_complete (mkRawInv [(n, m, none, e)]) = .ok [false] ∧
    missing_not_marked_complete (mkRawInv [(n, m, none, e)]) = .ok [false] ∧
    empty_and_not_complete (mkRawInv [(some (.int 0), m, none, e)]) = .ok [true] := by
  refine ⟨?_, ?_, rfl⟩
  · show Except.ok (sAnd ([n].map (fun v => vGt v 0))
        ([(none : Value)].map (fun v => vLt v 2))) = .ok [false]
    simp [sAnd, vLt]
  · show Except.ok (sAnd ([m].map (fun v => vEq v 1))
        ([(none : Value)].map (fun v => vLt v 2))) = .ok [false]
    simp [sAnd, vLt]

/-! ## `less_content_than_max` (claim C4) -/

/-- The documented per-source maximum: `max(non_nan_count over this
source)`, undefined on an empty source. -/
def sourceMaxNnc (rs : List Rec) : Option Nat :=
  match rs.map Rec.non_nan_count with
  | [] => none
  | a :: as => some (as.foldl max a)

/-- Documented formula `non_nan_count > 0 AND non_nan_count < max(non_nan_count over this source)`. -/
def formula_less_content_than_max (rs : List Rec) (r : Rec) : Bool :=
  decide (0 < r.non_nan_count) &&
    (match sourceMaxNnc rs with
     | none => false
     | some mx => decide (r.non_nan_count < mx))

theorem extract_int_col (rs : List Rec) :
    (rs.map (fun r => (some (.int r.non_nan_count) : Value))).filterMap extractInt =
      rs.map (fun r => (r.non_nan_count : Int)) := by
  induction rs with
  | nil => rfl
  | cons r rs ih => simp [List.filterMap_cons, extractInt, ih]

theorem foldl_max_cast (as : List Nat) (a : Nat) :
    ((as.foldl max a : Nat) : Int) =
      (as.map (Nat.cast : Nat → Int)).foldl max (a : Int) := by
  induction as generalizing a with
  | nil => rfl
  | cons b bs ih => simp [List.foldl, ih, Nat.cast_max]

theorem seriesMax_mkInv (rs : List Rec) :
    seriesMax (rs.map (fun r => some (.int r.non_nan_count))) =
      (match sourceMaxNnc rs with
       | none => none
       | some mx => some (.int mx)) := by
  have h1 : (rs.map (fun r => (some (.int r.non_nan_count) : Value))).filterMap
      extractInt =
      (rs.map Rec.non_nan_count).map (Nat.cast : Nat → Int) := by
    rw [extract_int_col, List.map_map]
    rfl
  simp only [seriesMax, h1, sourceMaxNnc]
  cases h : rs.map Rec.non_nan_count with
  | nil => rfl
  | cons a as => simp [foldl_max_cast]

theorem lctm_eval (rs : List Rec) :
    less_content_than_max (mkInv rs) =
      .ok (rs.map (formula_less_content_than_max rs)) := by
  simp only [less_content_than_max, col_mkInv_nnc, exceptBind_ok, List.map_map,
             sAnd_map_map, seriesMax_mkInv]
  congr 1
  refine List.map_congr_left fun r _ => ?_
  simp only [Function.comp, formula_less_content_than_max, vGt_nat]
  congr 1
  cases sourceMaxNnc rs with
  | none => rfl
  | some mx =>
      show vLtV (some (.int r.non_nan_count)) (some (.int mx)) = _
      rw [vLtV, decide_eq_decide]
      exact Nat.cast_lt

/-- A two-source environment: source `A` holds rows with counts 3 and 10,
source `B` a single row with count 20. -/
def twoSourceEnv : String → Frame := fun fn =>
  if fn = "A" then mkInv [⟨3, .unset, 0, 0⟩, ⟨10, .unset, 0, 0⟩]
  else mkInv [⟨20, .unset, 0, 0⟩]

/-- C4: on any source of domain records, `less_content_than_max` selects
exactly the rows whose `non_nan_count` is strictly positive and strictly
below the maximum `non_nan_count` of that same source; concretely, a source
with counts 3 and 10 selects only the count-3 row; and in a two-source batch
(`A` with counts 3 and 10, `B` with count 20) the maximum is per-source: the
run's output holds exactly `A`'s count-3 row, not `A`'s count-10 row (which
a batch-global maximum of 20 would also have selected). -/
theorem c4_less_content_than_max_uses_per_source_max (rs : List Rec) :
    less_content_than_max (mkInv rs) =
        .ok (rs.map (formula_less_content_than_max rs)) ∧
    less_content_than_max (mkInv [⟨3, .unset, 0, 0⟩, ⟨10, .unset, 0, 0⟩]) =
        .ok [true, false] ∧
    (mainRun ⟨false, false, ["A", "B"], "out.csv", "less_content_than_max"⟩
        twoSourceEnv).2 = .finished (mkInv [⟨3, .unset, 0, 0⟩]) :=
  ⟨lctm_eval rs, rfl, rfl⟩

/-! ## Missing columns (claim C5) -/

theorem findCol_eq_none (c : String) (cs : List String) (h : c ∉ cs) :
    findCol c cs = none := by
  induction cs with
  | nil => rfl
  | cons x xs ih =>
      rw [List.mem_cons, not_or] at h
      rw [findCol, if_neg (by simp [beq_iff_eq]; exact fun he => h.1 he.symm),
          ih h.2]
      rfl

theorem col_error_of_not_mem (f : Frame) (c : String) (h : c ∉ f.cols) :
    f.col c = .error () := by
  rw [Frame.col.eq_def, findCol_eq_none c f.cols h]

theorem bind1_col_error (inv : Frame) (c1 : String) (k : List Value → List Bool)
    (h : c1 ∉ inv.cols) :
    ((inv.col c1).bind fun n => Except.ok (k n)) = .error () := by
  rw [col_error_of_not_mem inv c1 h]
  rfl

theorem bind2_col_error (inv : Frame) (c1 c2 : String)
    (k : List Value → List Value → List Bool)
    (h : c1 ∉ inv.cols ∨ c2 ∉ inv.cols) :
    ((inv.col c1).bind fun a => (inv.col c2).bind fun b => Except.ok (k a b)) =
      .error () := by
  rcases h with h | h
  · rw [col_error_of_not_mem inv c1 h]
    rfl
  · cases hc : inv.col c1 with
    | error e => rfl
    | ok a =>
        rw [exceptBind_ok, col_error_of_not_mem inv c2 h]
        rfl

/-- C5: for each registered predicate, a record set lacking a column the
predicate's formula references makes the predicate raise the modelled
`KeyError`; `get_filter_results` catches it and returns the distinguished
failure value `none`, which no successful (even zero-row) evaluation can
equal. -/
theorem c5_missing_column_is_distinguishable_failure
    (p : String × (Frame → Except Unit (List Bool))) (hp : p ∈ FILTER_LIST)
    (inv : Frame) (h : ∃ c ∈ requiredCols p.1, c ∉ inv.cols) :
    get_filter_results inv p.2 = none ∧
      ∀ out : Frame, get_filter_results inv p.2 ≠ some out := by
  obtain ⟨c, hc, habs⟩ := h
  have herr : p.2 inv = Except.error () := by
    fin_cases hp
    · replace hc : c ∈ ["non_nan_count", "missing"] := hc
      simp only [List.mem_cons, List.not_mem_nil, or_false] at hc
      rcases hc with rfl | rfl
      · exact bind2_col_error inv _ _ _ (Or.inl habs)
      · exact bind2_col_error inv _ _ _ (Or.inr habs)
    · replace hc : c ∈ ["non_nan_count", "missing"] := hc
      simp only [List.mem_cons, List.not_mem_nil, or_false] at hc
      rcases hc with rfl | rfl
      · exact bind2_col_error inv _ _ _ (Or.inl habs)
      · exact bind2_col_error inv _ _ _ (Or.inr habs)
    · replace hc : c ∈ ["non_nan_count", "missing"] := hc
      simp only [List.mem_cons, List.not_mem_nil, or_false] at hc
      rcases hc with rfl | rfl
      · exact bind2_col_error inv _ _ _ (Or.inl habs)
      · exact bind2_col_error inv _ _ _ (Or.inr habs)
    · replace hc : c ∈ ["non_nan_count", "complete"] := hc
      simp only [List.mem_cons, List.not_mem_nil, or_false] at hc
      rcases hc with rfl | rfl
      · exact bind2_col_error inv _ _ _ (Or.inl habs)
      · exact bind2_col_error inv _ _ _ (Or.inr habs)
    · replace hc : c ∈ ["missing", "complete"] := hc
      simp only [List.mem_cons, List.not_mem_nil, or_false] at hc
      rcases hc with rfl | rfl
      · exact bind2_col_error inv _ _ _ (Or.inl habs)
      · exact bind2_col_error inv _ _ _ (Or.inr habs)
    · replace hc : c ∈ ["non_nan_count"] := hc
      simp only [List.mem_cons, List.not_mem_nil, or_false] at hc
      rcases hc with rfl
      exact bind1_col_error inv _ _ habs
    · replace hc : c ∈ ["missing", "non_nan_count"] := hc
      simp only [List.mem_cons, List.not_mem_nil, or_false] at hc
      rcases hc with rfl | rfl
      · exact bind2_col_error inv _ _ _ (Or.inl habs)
      · exact bind2_col_error inv _ _ _ (Or.inr habs)
    · replace hc : c ∈ ["non_nan_count", "complete"] := hc
      simp only [List.mem_cons, List.not_mem_nil, or_false] at hc
      rcases hc with rfl | rfl
      · exact bind2_col_error inv _ _ _ (Or.inl habs)
      · exact bind2_col_error inv _ _ _ (Or.inr habs)
    · replace hc : c ∈ ["non_nan_count", "exclude"] := hc
      simp only [List.mem_cons, List.not_mem_nil, or_false] at hc
      rcases hc with rfl | rfl
      · exact bind2_col_error inv _ _ _ (Or.inl habs)
      · exact bind2_col_error inv _ _ _ (Or.inr habs)
  have hnone : get_filter_results inv p.2 = none := by
    rw [get_filter_results.eq_def, herr]
  exact ⟨hnone, fun out hout => by rw [hnone] at hout; cases hout⟩

/-- Witness for C5: a one-column source under
`probably_not_missing_but_unmarked` (which needs `missing`). -/
theorem c5_missing_column_witness :
    get_filter_results ⟨["non_nan_count"], [[some (.int 0)]]⟩
        probably_not_missing_but_unmarked = none ∧
      ∀ out : Frame, get_filter_results ⟨["non_nan_count"], [[some (.int 0)]]⟩
        probably_not_missing_but_unmarked ≠ some out :=
  c5_missing_column_is_distinguishable_failure
    ("probably_not_missing_but_unmarked", probably_not_missing_but_unmarked)
    (List.mem_cons_self _ _) ⟨["non_nan_count"], [[some (.int 0)]]⟩
    ⟨"missing", by decide, by decide⟩

/-! ## Determinism (claim C8) -/

/-- C8: each registered predicate is a deterministic, side-effect-free
function of the columns named in its formula: two record sets agreeing on
those columns get the very same selection mask, and in particular applying
the same predicate to the same source twice yields identical,
identically-ordered match sets through `get_filter_results`. -/
theorem c8_predicates_deterministic_on_named_columns
    (p : String × (Frame → Except Unit (List Bool))) (hp : p ∈ FILTER_LIST)
    (inv1 inv2 : Frame)
    (h : ∀ c ∈ requiredCols p.1, inv1.col c = inv2.col c) :
    p.2 inv1 = p.2 inv2 ∧
      (inv1 = inv2 → get_filter_results inv1 p.2 = get_filter_results inv2 p.2) := by
  refine ⟨?_, fun he => he ▸ rfl⟩
  fin_cases hp
  · have h1 := h "non_nan_count" (by decide)
    have h2 := h "missing" (by decide)
    show probably_not_missing_but_unmarked inv1 = probably_not_missing_but_unmarked inv2
    simp only [probably_not_missing_but_unmarked]
    rw [h1, h2]
  · have h1 := h "non_nan_count" (by decide)
    have h2 := h "missing" (by decide)
    show probably_missing_but_marked_present inv1 = probably_missing_but_marked_present inv2
    simp only [probably_missing_but_marked_present]
    rw [h1, h2]
  · have h1 := h "non_nan_count" (by decide)
    have h2 := h "missing" (by decide)
    show probably_missing_but_unmarked inv1 = probably_missing_but_unmarked inv2
    simp only [probably_missing_but_unmarked]
    rw [h1, h2]
  · have h1 := h "non_nan_count" (by decide)
    have h2 := h "complete" (by decide)
    show content_not_marked_complete inv1 = content_not_marked_complete inv2
    simp only [content_not_marked_complete]
    rw [h1, h2]
  · have h1 := h "missing" (by decide)
    have h2 := h "complete" (by decide)
    show missing_not_marked_complete inv1 = missing_not_marked_complete inv2
    simp only [missing_not_marked_complete]
    rw [h1, h2]
  · have h1 := h "non_nan_count" (by decide)
    show less_content_than_max inv1 = less_content_than_max inv2
    simp only [less_content_than_max]
    rw [h1]
  · have h1 := h "missing" (by decide)
    have h2 := h "non_nan_count" (by decide)
    show has_content_but_marked_missing inv1 = has_content_but_marked_missing inv2
    simp only [has_content_but_marked_missing]
    rw [h1, h2]
  · have h1 := h "non_nan_count" (by decide)
    have h2 := h "complete" (by decide)
    show empty_and_not_complete inv1 = empty_and_not_complete inv2
    simp only [empty_and_not_complete]
    rw [h1, h2]
  · have h1 := h "non_nan_count" (by decide)
    have h2 := h "exclude" (by decide)
    show empty_and_not_ignored inv1 = empty_and_not_ignored inv2
    simp only [empty_and_not_ignored]
    rw [h1, h2]

/-- Witness for C8: a four-column source and a two-column source agreeing on
the referenced columns get the same mask from
`probably_not_missing_but_unmarked`. -/
theorem c8_determinism_witness :
    probably_not_missing_but_unmarked (mkInv [⟨5, .unset, 1, 0⟩]) =
        probably_not_missing_but_unmarked
          ⟨["non_nan_count", "missing"], [[some (.int 5), none]]⟩ ∧
      (mkInv [⟨5, .unset, 1, 0⟩] = mkInv [⟨5, .unset, 1, 0⟩] →
        get_filter_results (mkInv [⟨5, .unset, 1, 0⟩])
            probably_not_missing_but_unmarked =
          get_filter_results (mkInv [⟨5, .unset, 1, 0⟩])
            probably_not_missing_but_unmarked) := by
  have := c8_predicates_deterministic_on_named_columns
    ("probably_not_missing_but_unmarked", probably_not_missing_but_unmarked)
    (List.mem_cons_self _ _) (mkInv [⟨5, .unset, 1, 0⟩])
    ⟨["non_nan_count", "missing"], [[some (.int 5), none]]⟩
    (by
      intro c hc
      replace hc : c ∈ ["non_nan_count", "missing"] := hc
      fin_cases hc <;> rfl)
  exact ⟨this.1, fun _ => rfl⟩

/-! ## The frame condition of filtering (claim C9) -/

theorem applyMask_sublist (rows : List (List Value)) (mask : List Bool) :
    (applyMask rows mask).Sublist rows := by
  induction rows generalizing mask with
  | nil => simp [applyMask]
  | cons r rs ih =>
      cases mask with
      | nil => simp [applyMask]
      | cons b bs =>
          have hs : applyMask (r :: rs) (b :: bs) =
              if b then r :: applyMask rs bs else applyMask rs bs := by
            cases b <;> rfl
          rw [hs]
          cases b
          · exact (ih bs).cons r
          · exact (ih bs).cons₂ r

/-- C9: filtering through `get_filter_results` only ever produces a derived
view of its input: the output keeps exactly the input's columns (none
created, dropped or renamed — in particular `non_nan_count` is untouched)
and its rows are a sublist of the input's rows, each row unchanged cell for
cell; the input frame itself, being a value, is never mutated. -/
theorem c9_filtering_is_derived_view (inv : Frame)
    (f : Frame → Except Unit (List Bool)) (out : Frame)
    (hout : get_filter_results inv f = some out) :
    out.cols = inv.cols ∧ out.rows.Sublist inv.rows := by
  rw [get_filter_results.eq_def] at hout
  cases hf : f inv with
  | error e => rw [hf] at hout; cases hout
  | ok mask =>
      rw [hf] at hout
      injection hout with hout
      subst hout
      exact ⟨rfl, applyMask_sublist _ _⟩

/-- Witness for C9: a concrete one-row source filtered by
`probably_not_missing_but_unmarked`. -/
theorem c9_derived_view_witness :
    (mkInv [⟨5, .unset, 1, 0⟩]).cols = (mkInv [⟨5, .unset, 1, 0⟩]).cols ∧
      (mkInv [⟨5, .unset, 1, 0⟩]).rows.Sublist (mkInv [⟨5, .unset, 1, 0⟩]).rows :=
  c9_filtering_is_derived_view (mkInv [⟨5, .unset, 1, 0⟩])
    probably_not_missing_but_unmarked (mkInv [⟨5, .unset, 1, 0⟩]) rfl

/-! ## Driver behaviour on failing and empty batches (claims C2, C3, C6) -/

/-- A batch whose first source holds one record matching
`probably_missing_but_unmarked` and whose second source lacks the
`missing` column. -/
def envAbort : String → Frame := fun fn =>
  if fn = "a.csv" then mkInv [⟨0, .unset, 0, 0⟩]
  else { cols := ["non_nan_count"], rows := [[some (.int 0)]] }

/-- C2 (recording the code bug): on the batch `[a.csv, b.csv]` where `a.csv`
yields a non-empty match set and `b.csv` then fails with the missing-column
error, the script reads both files and exits 1 with no write event at all:
the match already accumulated from `a.csv` is discarded and remaining
processing is aborted, contrary to the claimed collect-and-report design
(which the spec itself records as the intended correction of this
behaviour). -/
theorem c2_run_aborts_discarding_prior_matches :
    mainRun ⟨false, false, ["a.csv", "b.csv"], "out.csv",
        "probably_missing_but_unmarked"⟩ envAbort =
      ([.read "a.csv", .read "b.csv"], .filterFailed) ∧
    get_filter_results (envAbort "a.csv") probably_missing_but_unmarked =
      some (mkInv [⟨0, .unset, 0, 0⟩]) ∧
    get_filter_results (envAbort "b.csv") probably_missing_but_unmarked = none ∧
    Outcome.filterFailed.exitCode = 1 :=
  ⟨rfl, rfl, rfl, rfl⟩

/-- A batch whose single source evaluates successfully but matches no row of
`probably_missing_but_unmarked` (its one record has content and is marked
present and complete). -/
def envNoMatch : String → Frame := fun _ => mkInv [⟨5, .present, 2, 0⟩]

/-- C3 (recording the code bug): when every source is evaluated successfully
but zero sources produce a matching row, `all_out` stays empty and
`pd.concat([])` raises `ValueError`, so the run crashes with a nonzero exit
and no write event — it does not emit a header-only empty table and does not
exit 0 as the claim states. -/
theorem c3_zero_match_run_crashes_instead_of_writing :
    mainRun ⟨false, false, ["a.csv"], "out.csv",
        "probably_missing_but_unmarked"⟩ envNoMatch =
      ([.read "a.csv"], .crashed) ∧
    get_filter_results (envNoMatch "a.csv") probably_missing_but_unmarked =
      some { cols := invCols, rows := [] } ∧
    Outcome.crashed.exitCode ≠ 0 :=
  ⟨rfl, rfl, by decide⟩

/-- C6: a request whose filter name is not among the registry's names is
rejected by argument validation: the run ends as a usage error with an empty
event trace — no source is read and no output is written. -/
theorem c6_unknown_filter_rejected_before_io (a : Args) (env : String → Frame)
    (h : a.filter ∉ filterNames) :
    mainRun a env = ([], .usageError) ∧ (mainRun a env).2.exitCode = 2 := by
  have hp : parse_args filterNames a = .error () := by
    rw [parse_args.eq_def]
    by_cases hi : a.input.isEmpty
    · rw [if_pos hi]
    · rw [if_neg hi, if_neg h]
  have hm : mainRun a env = ([], .usageError) := by
    rw [mainRun.eq_def, hp]
  exact ⟨hm, by rw [hm]; rfl⟩

/-- Witness for C6: the filter name `bogus` with one input file. -/
theorem c6_unknown_filter_witness :
    mainRun ⟨false, false, ["a.csv"], "out.csv", "bogus"⟩ envNoMatch =
        ([], .usageError) ∧
      (mainRun ⟨false, false, ["a.csv"], "out.csv", "bogus"⟩ envNoMatch).2.exitCode = 2 :=
  c6_unknown_filter_rejected_before_io
    ⟨false, false, ["a.csv"], "out.csv", "bogus"⟩ envNoMatch (by decide)

/-! ## Aggregation (claim C7) -/

theorem rowVal_none (f : Frame) (r : List Value) (c : String) (h : c ∉ f.cols) :
    f.rowVal r c = none := by
  rw [Frame.rowVal.eq_def, findCol_eq_none c f.cols h]

theorem mem_unionCols_aux (fs : List Frame) (acc : List String) (c : String) :
    c ∈ fs.foldl (fun acc f => acc ++ f.cols.filter (fun x => !acc.contains x)) acc ↔
      c ∈ acc ∨ ∃ g ∈ fs, c ∈ g.cols := by
  induction fs generalizing acc with
  | nil => simp
  | cons f fs ih =>
      rw [List.foldl_cons, ih]
      have hstep : c ∈ acc ++ f.cols.filter (fun x => !acc.contains x) ↔
          c ∈ acc ∨ c ∈ f.cols := by
        simp [List.mem_filter]
        tauto
      rw [hstep]
      simp [or_assoc]

theorem mem_unionCols (fs : List Frame) (c : String) :
    c ∈ unionCols fs ↔ ∃ g ∈ fs, c ∈ g.cols := by
  rw [unionCols.eq_def, mem_unionCols_aux]
  simp

theorem mainLoop_all_success (f : Frame → Except Unit (List Bool))
    (env : String → Frame) (inputs : List String) :
    ∀ (all_out : List Frame) (evs : List Event),
      (∀ fn ∈ inputs, get_filter_results (env fn) f ≠ none) →
      (mainLoop f env inputs all_out evs).2 =
        (if all_out ++ contribOf f env inputs = [] then Outcome.crashed
         else .finished (concatFrames (all_out ++ contribOf f env inputs))) := by
  induction inputs with
  | nil =>
      intro all_out evs h
      have hc : contribOf f env [] = [] := rfl
      rw [hc, List.append_nil]
      cases all_out with
      | nil => rfl
      | cons r rs => rw [if_neg (by simp)]; rfl
  | cons fn rest ih =>
      intro all_out evs h
      have hfn := h fn (List.mem_cons_self _ _)
      have hrest : ∀ x ∈ rest, get_filter_results (env x) f ≠ none :=
        fun x hx => h x (List.mem_cons_of_mem _ hx)
      rcases hr : get_filter_results (env fn) f with _ | res
      · exact absurd hr hfn
      · have hcontrib : contribOf f env (fn :: rest) =
            (if res.rows.isEmpty then [] else [res]) ++ contribOf f env rest := by
          simp only [contribOf, List.filterMap_cons, hr, List.filter_cons]
          cases hE : res.rows.isEmpty <;> simp
        simp only [mainLoop, hr]
        cases hE : res.rows.isEmpty
        · rw [if_neg (by simp), ih (all_out ++ [res]) _ hrest, hcontrib, hE]
          simp
        · rw [if_pos rfl, ih all_out _ hrest, hcontrib, hE]
          simp

/-- C7: in a run whose arguments parse, whose filter resolves, and in which
every source evaluates successfully, the aggregate is the concatenation of
exactly the non-empty per-source match sets in source order (zero-match
sources are omitted without signalling failure, and the run finishes):
its columns are the union, in order of first appearance, of the
contributing match sets' columns; its row list is the source-order
flattening of each contributing match set's rows in their original order,
each row re-indexed over the union columns; and a row coming from a match
set lacking some column carries an empty (NaN) cell in that column. -/
theorem c7_aggregation_column_union_preserving_order
    (a : Args) (env : String → Frame) (f : Frame → Except Unit (List Bool))
    (hparse : parse_args filterNames a = .ok a)
    (hlook : FILTER_LIST.lookup a.filter = some f)
    (hsucc : ∀ fn ∈ a.input, get_filter_results (env fn) f ≠ none)
    (hne : contribOf f env a.input ≠ []) :
    (mainRun a env).2 = .finished (concatFrames (contribOf f env a.input)) ∧
    (∀ c, c ∈ (concatFrames (contribOf f env a.input)).cols ↔
      ∃ g ∈ contribOf f env a.input, c ∈ g.cols) ∧
    (concatFrames (contribOf f env a.input)).rows =
      (contribOf f env a.input).flatMap (fun g =>
        g.rows.map (fun r =>
          (concatFrames (contribOf f env a.input)).cols.map (g.rowVal r))) ∧
    (∀ g : Frame, ∀ r : List Value, ∀ c : String, c ∉ g.cols →
      g.rowVal r c = none) := by
  refine ⟨?_, fun c => mem_unionCols _ c, rfl,
    fun g r c h => rowVal_none g r c h⟩
  simp only [mainRun, hparse, hlook]
  rw [mainLoop_all_success f env a.input [] [] hsucc, List.nil_append,
      if_neg hne]

/-- A two-source batch for the aggregation witness: both sources match
`probably_missing_but_unmarked`; the first carries an extra `subject`
column the second lacks. -/
def unionEnv : String → Frame := fun fn =>
  if fn = "A" then
    ⟨["non_nan_count", "missing", "subject"],
     [[some (.int 0), none, some (.str "S1")]]⟩
  else ⟨["non_nan_count", "missing"], [[some (.int 0), none]]⟩

/-- Witness for C7: the two-source batch above, with column-union output. -/
theorem c7_aggregation_witness :
    (mainRun ⟨false, false, ["A", "B"], "out.csv",
        "probably_missing_but_unmarked"⟩ unionEnv).2 =
      .finished (concatFrames (contribOf probably_missing_but_unmarked
        unionEnv ["A", "B"])) ∧
    (∀ c, c ∈ (concatFrames (contribOf probably_missing_but_unmarked
        unionEnv ["A", "B"])).cols ↔
      ∃ g ∈ contribOf probably_missing_but_unmarked unionEnv ["A", "B"],
        c ∈ g.cols) ∧
    (concatFrames (contribOf probably_missing_but_unmarked
        unionEnv ["A", "B"])).rows =
      (contribOf probably_missing_but_unmarked unionEnv ["A", "B"]).flatMap
        (fun g => g.rows.map (fun r =>
          (concatFrames (contribOf probably_missing_but_unmarked
            unionEnv ["A", "B"])).cols.map (g.rowVal r))) ∧
    (∀ g : Frame, ∀ r : List Value, ∀ c : String, c ∉ g.cols →
      g.rowVal r c = none) :=
  c7_aggregation_column_union_preserving_order
    ⟨false, false, ["A", "B"], "out.csv", "probably_missing_but_unmarked"⟩
    unionEnv probably_missing_but_unmarked rfl rfl (by decide) (by decide)

end FilterInventory
